import Mathlib

/-!
Verification of the message decoder and state-publication core of
`src/ant/plus/heartrate.py` (ANT+ heart-rate device profile).

The embedding mirrors the Python class `HeartRate` field by field:

* `__init__` stores `self._computed_heart_rate = None`, `self._beat_count = 0`,
  `self._previous_beat_count = 0`, `self._previous_event_time = 0`,
  `self._detected_device = None`.
* `_set_data` however reads and writes the attribute `self.previous_event_time`
  (without the leading underscore), which `__init__` never creates.  In Python
  an attribute read before any write raises `AttributeError`; we model that
  attribute as an `Option Nat` that starts out `none`, and model the raised
  exception with a dedicated result constructor carrying the (already
  partially mutated) state, since Python mutations made before the raise
  persist on the object.
* Python integers are unbounded, so `_beat_count` is modelled as `Int` with
  exact arithmetic; the `difference` local is an `Int` computed exactly as in
  the source.
* The file is Python 2 (`from plus import _EventHandler` is an implicit
  relative import), so `/` on integers is floor division: `Int.fdiv`.
* The observer (`callback`) is duck-typed with two independently optional
  methods; we model which methods are present with Boolean flags, and record
  an invoked callback with the exact argument tuple the source passes.
-/

namespace HeartRatePy

/-- Payloads are byte strings: every element is in `0 … 255`. -/
def bytesOK (data : List Nat) : Bool :=
  data.all (· < 256)

/-- The duck-typed observer supplied at construction: it may be absent
(`present = false`, i.e. `callback=None`), and each of its two methods
(`heartrate_data`, `device_found`) may be independently missing
(the source probes them with `getattr(…, name, None)`). -/
structure CallbackCfg where
  present : Bool
  has_heartrate_data : Bool
  has_device_found : Bool
deriving DecidableEq

/-- `callback=None`: no observer registered at construction. -/
def noCallback : CallbackCfg :=
  { present := false, has_heartrate_data := false, has_device_found := false }

/-- The mutable attributes of a `HeartRate` object that the decoder core
touches.  `previous_event_time` is the attribute `self.previous_event_time`
used by `_set_data`; it does not exist until `_set_data` first writes it,
hence `Option`.  `underscore_previous_event_time` is the distinct attribute
`self._previous_event_time` that `__init__` sets to 0 and nothing reads. -/
structure HeartRateState where
  computed_heart_rate : Option Nat
  beat_count : Int
  previous_beat_count : Nat
  underscore_previous_event_time : Nat
  previous_event_time : Option Nat
  detected_device : Option (Nat × Nat)
deriving DecidableEq

/-- The state established by `HeartRate.__init__`. -/
def initState : HeartRateState :=
  { computed_heart_rate := none
    beat_count := 0
    previous_beat_count := 0
    underscore_previous_event_time := 0
    previous_event_time := none
    detected_device := none }

/-- Byte-offset constants, exactly as in `_set_data`. -/
def data_size : Nat := 9

def payload_offset : Nat := 1

def event_time_lsb_index : Nat := 4 + payload_offset

def event_time_msb_index : Nat := 5 + payload_offset

def heart_beat_count_index : Nat := 6 + payload_offset

def computed_heart_rate_index : Nat := 7 + payload_offset

/-- The unwrap arithmetic of `_set_data`, lines 107-112 of the source:
`difference = (beat_count + 256) - previous` on wrap, else the plain
difference.  Computed in `Int`, as Python integers are signed and exact. -/
def difference (prev bc : Nat) : Int :=
  if prev > bc then ((bc : Int) + 256) - (prev : Int) else (bc : Int) - (prev : Int)

/-- `event_time = (data[event_time_msb_index] << 8) + data[event_time_lsb_index]`.
Indices 5 and 6 are in bounds whenever the length-9 guard has passed, so the
`getD` default is never consulted on the guarded path. -/
def eventTime (data : List Nat) : Nat :=
  ((data.getD event_time_msb_index 0) <<< 8) + data.getD event_time_lsb_index 0

/-- Argument tuple of an invocation of `callback.heartrate_data`:
`(self._computed_heart_rate, self._beat_count, rr_interval)`. -/
abbrev HeartRateCall := Option Nat × Int × Int

/-- Outcome of one `_set_data` call.
`ignored`: the length guard failed and the method returned at once;
`ok s rr call`: normal completion with new state `s`, the local
`rr_interval` value `rr`, and the callback invocation (if any);
`raised s`: `AttributeError` escaped while reading
`self.previous_event_time`, leaving the partially mutated state `s`
(Python releases the lock on exception but keeps the mutations already
made). -/
inductive SetDataResult where
  | ignored (s : HeartRateState)
  | ok (s : HeartRateState) (rr : Int) (call : Option HeartRateCall)
  | raised (s : HeartRateState)
deriving DecidableEq

/-- The object state after the call, for every outcome. -/
def SetDataResult.state : SetDataResult → HeartRateState
  | .ignored s => s
  | .ok s _ _ => s
  | .raised s => s

/-- The `rr_interval` local produced by the call, when the body ran to
completion. -/
def SetDataResult.rrOf : SetDataResult → Option Int
  | .ignored _ => none
  | .ok _ rr _ => some rr
  | .raised _ => none

/-- The `heartrate_data` callback invocation performed by the call, if any. -/
def SetDataResult.callOf : SetDataResult → Option HeartRateCall
  | .ignored _ => none
  | .ok _ _ c => c
  | .raised _ => none

/-- Body of `_set_data` after the length guard has passed (source lines
103-129).  Mutation order follows the source: `_computed_heart_rate`,
then the unwrap difference from the old `_previous_beat_count`, then
`_previous_beat_count`, then `_beat_count += difference`, then the
`rr_interval` computation (which reads `self.previous_event_time` and
raises `AttributeError` when that attribute does not yet exist), then
`self.previous_event_time = event_time`, and finally the callback
invocation outside the lock with the current field values.
Python 2 `/` on integers is floor division, hence `Int.fdiv`. -/
def set_data_valid (cb : CallbackCfg) (s : HeartRateState) (data : List Nat) :
    SetDataResult :=
  let bc := data.getD heart_beat_count_index 0
  let diff := difference s.previous_beat_count bc
  let s₁ : HeartRateState :=
    { s with
      computed_heart_rate := some (data.getD computed_heart_rate_index 0)
      previous_beat_count := bc
      beat_count := s.beat_count + diff }
  let et := eventTime data
  if diff = 1 then
    match s.previous_event_time with
    | none => .raised s₁
    | some pet =>
      let rr := Int.fdiv (((et : Int) - (pet : Int)) * 1000) 1024
      let s₂ := { s₁ with previous_event_time := some et }
      .ok s₂ rr
        (if cb.present && cb.has_heartrate_data then
          some (s₂.computed_heart_rate, s₂.beat_count, rr)
        else none)
  else
    let s₂ := { s₁ with previous_event_time := some et }
    .ok s₂ 0
      (if cb.present && cb.has_heartrate_data then
        some (s₂.computed_heart_rate, s₂.beat_count, 0)
      else none)

/-- `HeartRate._set_data`: the length guard (`if len(data) != data_size:
return`) followed by the decode-and-publish body. -/
def set_data (cb : CallbackCfg) (s : HeartRateState) (data : List Nat) :
    SetDataResult :=
  if data.length ≠ data_size then .ignored s else set_data_valid cb s data

/-- `HeartRate._set_detected_device`: stores `(device_num, trans_type)` in
`self._detected_device` under the lock, then invokes the observer's
`device_found` callback (if present) outside the lock.  Returns the new
state and the callback invocation, if any. -/
def set_detected_device (cb : CallbackCfg) (s : HeartRateState)
    (device_num trans_type : Nat) : HeartRateState × Option (Nat × Nat) :=
  ({ s with detected_device := some (device_num, trans_type) },
   if cb.present && cb.has_device_found then some (device_num, trans_type)
   else none)

/-- States reachable from construction by any interleaving of `_set_data`
calls (on byte-string payloads of any length) and `_set_detected_device`
calls.  A raised `AttributeError` leaves its partially mutated state behind,
which `SetDataResult.state` reflects. -/
inductive Reachable (cb : CallbackCfg) : HeartRateState → Prop where
  | init : Reachable cb initState
  | data (s : HeartRateState) (d : List Nat) :
      Reachable cb s → bytesOK d = true → Reachable cb ((set_data cb s d).state)
  | device (s : HeartRateState) (n t : Nat) :
      Reachable cb s → Reachable cb (set_detected_device cb s n t).1

/-- Sequential processing of a list of payloads by `_set_data`. -/
def run_messages (cb : CallbackCfg) (s : HeartRateState) :
    List (List Nat) → HeartRateState
  | [] => s
  | d :: ds => run_messages cb ((set_data cb s d).state) ds

/-- The exact sum of the per-message unwrap differences along a payload
sequence, threading the raw beat count of each message as the previous
value for the next. -/
def diff_sum (prev : Nat) : List (List Nat) → Int
  | [] => 0
  | d :: ds =>
      difference prev (d.getD heart_beat_count_index 0) +
        diff_sum (d.getD heart_beat_count_index 0) ds

/-- A 9-byte payload with the given event-time bytes, raw beat count and
computed heart rate at the offsets `_set_data` reads. -/
def mkMsg (lsb msb bc chr : Nat) : List Nat :=
  [0, 0, 0, 0, 0, lsb, msb, bc, chr]

/-! ### Helper lemmas -/

theorem state_ignored (s : HeartRateState) :
    (SetDataResult.ignored s).state = s := rfl

theorem state_ok (s : HeartRateState) (rr : Int) (c : Option HeartRateCall) :
    (SetDataResult.ok s rr c).state = s := rfl

theorem state_raised (s : HeartRateState) :
    (SetDataResult.raised s).state = s := rfl

theorem set_data_of_length_ne (cb : CallbackCfg) (s : HeartRateState)
    (d : List Nat) (h : d.length ≠ 9) : set_data cb s d = .ignored s := by
  simp [set_data, data_size, h]

theorem set_data_of_length_eq (cb : CallbackCfg) (s : HeartRateState)
    (d : List Nat) (h : d.length = 9) :
    set_data cb s d = set_data_valid cb s d := by
  simp [set_data, data_size, h]

theorem set_data_valid_state_fields (cb : CallbackCfg) (s : HeartRateState)
    (d : List Nat) :
    ((set_data_valid cb s d).state).previous_beat_count
        = d.getD heart_beat_count_index 0 ∧
      ((set_data_valid cb s d).state).beat_count
        = s.beat_count +
            difference s.previous_beat_count (d.getD heart_beat_count_index 0) := by
  cases hp : s.previous_event_time <;>
    simp [set_data_valid, hp,
      apply_ite SetDataResult.state, state_ignored, state_ok, state_raised,
      apply_ite HeartRateState.previous_beat_count,
      apply_ite HeartRateState.beat_count]

theorem set_data_state_fields (cb : CallbackCfg) (s : HeartRateState)
    (d : List Nat) (h : d.length = 9) :
    ((set_data cb s d).state).previous_beat_count
        = d.getD heart_beat_count_index 0 ∧
      ((set_data cb s d).state).beat_count
        = s.beat_count +
            difference s.previous_beat_count (d.getD heart_beat_count_index 0) := by
  rw [set_data_of_length_eq cb s d h]
  exact set_data_valid_state_fields cb s d

theorem getD_lt_of_bytesOK (d : List Nat) (hb : bytesOK d = true) (i : Nat) :
    d.getD i 0 < 256 := by
  induction d generalizing i with
  | nil => simp [List.getD]
  | cons x xs ih =>
    simp only [bytesOK, List.all_cons, Bool.and_eq_true, decide_eq_true_eq] at hb
    cases i with
    | zero => simpa using hb.1
    | succ n =>
      simpa using ih (by simpa [bytesOK] using hb.2) n

theorem difference_nonneg (prev bc : Nat) (hp : prev ≤ 255) :
    0 ≤ difference prev bc := by
  unfold difference
  split <;> omega

theorem reachable_previous_beat_count_le (cb : CallbackCfg)
    (s : HeartRateState) (h : Reachable cb s) : s.previous_beat_count ≤ 255 := by
  induction h with
  | init => simp [initState]
  | data s d _ hb ih =>
    by_cases hd : d.length = 9
    · rw [(set_data_state_fields cb s d hd).1]
      have := getD_lt_of_bytesOK d hb heart_beat_count_index
      omega
    · rw [set_data_of_length_ne cb s d hd]
      simpa [SetDataResult.state] using ih
  | device s n t _ ih =>
    simpa [set_detected_device] using ih

/-! ### Claim theorems -/

/-- Claim C1 (code bug): the spec promises that with no observer registered,
`_set_data` completes without error for all inputs; the code violates this.
`__init__` initialises `self._previous_event_time` (with underscore) but
`_set_data` reads `self.previous_event_time` (without underscore), which does
not exist until the first message whose unwrap difference is not 1 has been
processed.  Feeding the freshly constructed object a single valid 9-byte
payload with raw beat count 1 (difference = 1 from the initial previous
count 0) makes `_set_data` raise `AttributeError` after having already
mutated `_computed_heart_rate`, `_previous_beat_count` and `_beat_count`. -/
theorem set_data_raises_on_first_unit_difference :
    set_data noCallback initState (mkMsg 0 0 1 60) =
      .raised
        { computed_heart_rate := some 60
          beat_count := 1
          previous_beat_count := 1
          underscore_previous_event_time := 0
          previous_event_time := none
          detected_device := none } := by
  decide

/-- Claim C2: a payload whose length is not 9 makes `_set_data` return at the
length guard: the state is returned unchanged in every field and no observer
callback is invoked. -/
theorem malformed_payload_ignored (cb : CallbackCfg) (s : HeartRateState)
    (d : List Nat) (h : d.length ≠ 9) :
    set_data cb s d = .ignored s ∧ (set_data cb s d).state = s ∧
      (set_data cb s d).callOf = none := by
  refine ⟨set_data_of_length_ne cb s d h, ?_, ?_⟩ <;>
    rw [set_data_of_length_ne cb s d h] <;> rfl

/-- Witness for C2 at the concrete malformed payload `[1, 2, 3]`. -/
theorem malformed_payload_ignored_witness :
    set_data noCallback initState [1, 2, 3] = .ignored initState ∧
      (set_data noCallback initState [1, 2, 3]).state = initState ∧
      (set_data noCallback initState [1, 2, 3]).callOf = none :=
  malformed_payload_ignored noCallback initState [1, 2, 3] (by decide)

/-- Claim C3: from every state reachable from construction, no single call
decreases the cumulative beat count: `_set_data` on any payload leaves
`_beat_count` greater than or equal to its old value (the unwrap difference
is non-negative because the stored previous raw count is a byte), and
`_set_detected_device` leaves it exactly unchanged. -/
theorem beat_count_monotone (cb : CallbackCfg) (s : HeartRateState)
    (h : Reachable cb s) :
    (∀ d : List Nat, s.beat_count ≤ ((set_data cb s d).state).beat_count) ∧
      (∀ n t : Nat, ((set_detected_device cb s n t).1).beat_count = s.beat_count) := by
  constructor
  · intro d
    by_cases hd : d.length = 9
    · rw [(set_data_state_fields cb s d hd).2]
      have hprev := reachable_previous_beat_count_le cb s h
      have := difference_nonneg s.previous_beat_count
        (d.getD heart_beat_count_index 0) hprev
      omega
    · rw [set_data_of_length_ne cb s d hd, state_ignored]
  · intro n t
    rfl

/-- Witness for C3 at the initial state and a concrete valid payload. -/
theorem beat_count_monotone_witness :
    initState.beat_count ≤
        ((set_data noCallback initState (mkMsg 0 0 5 70)).state).beat_count ∧
      ((set_detected_device noCallback initState 9 1).1).beat_count
        = initState.beat_count :=
  ⟨(beat_count_monotone noCallback initState Reachable.init).1 (mkMsg 0 0 5 70),
   (beat_count_monotone noCallback initState Reachable.init).2 9 1⟩

/-- Claim C4: for every 9-byte payload the amount added to the cumulative
beat count is `(raw + 256) - previous` when `previous > raw` (one wrap) and
`raw - previous` otherwise; and concretely, from a state holding previous raw
beat count 254, the raw beat count sequence `[255, 0, 1]` yields cumulative
increments `[1, 1, 1]`. -/
theorem unwrap_difference_correct (cb : CallbackCfg) (s : HeartRateState)
    (d : List Nat) (h : d.length = 9) :
    ((set_data cb s d).state).beat_count =
        s.beat_count +
          (if s.previous_beat_count > d.getD heart_beat_count_index 0 then
            ((d.getD heart_beat_count_index 0 : Int) + 256) - s.previous_beat_count
          else (d.getD heart_beat_count_index 0 : Int) - s.previous_beat_count) ∧
      (let s0 : HeartRateState :=
        { computed_heart_rate := some 70
          beat_count := 254
          previous_beat_count := 254
          underscore_previous_event_time := 0
          previous_event_time := some 0
          detected_device := none }
       let s1 := (set_data cb s0 (mkMsg 0 1 255 70)).state
       let s2 := (set_data cb s1 (mkMsg 0 2 0 70)).state
       let s3 := (set_data cb s2 (mkMsg 0 3 1 70)).state
       s1.beat_count = 255 ∧ s2.beat_count = 256 ∧ s3.beat_count = 257) := by
  constructor
  · rw [(set_data_state_fields cb s d h).2]
    rfl
  · cases cb with
    | mk p hd hf => cases p <;> cases hd <;> cases hf <;> decide

/-- Witness for C4 at a wrapping concrete input: previous raw count 200,
message raw count 10. -/
theorem unwrap_difference_correct_witness :
    ((set_data noCallback
        { computed_heart_rate := none
          beat_count := 500
          previous_beat_count := 200
          underscore_previous_event_time := 0
          previous_event_time := some 0
          detected_device := none } (mkMsg 0 0 10 70)).state).beat_count =
      500 +
        (if 200 > (mkMsg 0 0 10 70).getD heart_beat_count_index 0 then
          (((mkMsg 0 0 10 70).getD heart_beat_count_index 0 : Int) + 256) - 200
        else ((mkMsg 0 0 10 70).getD heart_beat_count_index 0 : Int) - 200) :=
  (unwrap_difference_correct noCallback
    { computed_heart_rate := none
      beat_count := 500
      previous_beat_count := 200
      underscore_previous_event_time := 0
      previous_event_time := some 0
      detected_device := none } (mkMsg 0 0 10 70) (by decide)).1

/-- Claim C5: when the unwrap difference is exactly 1 and the attribute
`previous_event_time` holds `pet`, `_set_data` completes normally and the
`rr_interval` it produces is `(event_time - pet) * 1000 / 1024` with
`event_time = (data[6] << 8) + data[5]` (Python 2 floor division). -/
theorem rr_interval_single_beat (cb : CallbackCfg) (s : HeartRateState)
    (d : List Nat) (pet : Nat) (hlen : d.length = 9)
    (hpet : s.previous_event_time = some pet)
    (hdiff : difference s.previous_beat_count (d.getD heart_beat_count_index 0) = 1) :
    (set_data cb s d).rrOf =
      some (Int.fdiv (((eventTime d : Int) - (pet : Int)) * 1000) 1024) := by
  rw [set_data_of_length_eq cb s d hlen]
  unfold set_data_valid
  rw [if_pos hdiff, hpet]
  rfl

/-- Witness for C5: previous event time 1024, previous raw beat count 10,
message with raw beat count 11 and event time 2048 gives an RR interval of
exactly 1000 ms. -/
theorem rr_interval_single_beat_witness :
    (set_data noCallback
        { computed_heart_rate := none
          beat_count := 10
          previous_beat_count := 10
          underscore_previous_event_time := 0
          previous_event_time := some 1024
          detected_device := none } (mkMsg 0 8 11 72)).rrOf = some 1000 :=
  (rr_interval_single_beat noCallback
    { computed_heart_rate := none
      beat_count := 10
      previous_beat_count := 10
      underscore_previous_event_time := 0
      previous_event_time := some 1024
      detected_device := none } (mkMsg 0 8 11 72) 1024 (by decide) rfl
    (by decide)).trans (by decide)

/-- Claim C6: when the unwrap difference is anything other than 1 (zero, or
two or more), `_set_data` completes normally and the `rr_interval` it
produces is 0, whatever the event-time bytes of the message and whatever the
stored previous event time (the attribute is not even read on this path). -/
theorem rr_interval_zero_of_nonunit (cb : CallbackCfg) (s : HeartRateState)
    (d : List Nat) (hlen : d.length = 9)
    (hdiff : difference s.previous_beat_count (d.getD heart_beat_count_index 0) ≠ 1) :
    (set_data cb s d).rrOf = some 0 := by
  rw [set_data_of_length_eq cb s d hlen]
  unfold set_data_valid
  rw [if_neg hdiff]
  rfl

/-- Witness for C6 at the initial state with raw beat count 0 (difference
0): the previous event time is not even set, yet no error occurs and the RR
interval is 0. -/
theorem rr_interval_zero_of_nonunit_witness :
    (set_data noCallback initState (mkMsg 7 7 0 70)).rrOf = some 0 :=
  rr_interval_zero_of_nonunit noCallback initState (mkMsg 7 7 0 70)
    (by decide) (by decide)

/-- Claim C7: `_set_detected_device` changes none of the derived-state
fields (computed heart rate, cumulative beat count, previous raw beat count,
previous event time), and `_set_data` never changes the detected device, on
every one of its paths (length guard, normal completion, raised
`AttributeError`). -/
theorem discovery_independence (cb : CallbackCfg) (s : HeartRateState)
    (n t : Nat) (d : List Nat) :
    ((set_detected_device cb s n t).1).computed_heart_rate = s.computed_heart_rate ∧
      ((set_detected_device cb s n t).1).beat_count = s.beat_count ∧
      ((set_detected_device cb s n t).1).previous_beat_count = s.previous_beat_count ∧
      ((set_detected_device cb s n t).1).previous_event_time = s.previous_event_time ∧
      ((set_data cb s d).state).detected_device = s.detected_device := by
  refine ⟨rfl, rfl, rfl, rfl, ?_⟩
  by_cases hd : d.length = 9
  · rw [set_data_of_length_eq cb s d hd]
    cases hp : s.previous_event_time <;>
      simp [set_data_valid, hp,
        apply_ite SetDataResult.state, state_ignored, state_ok, state_raised,
        apply_ite HeartRateState.detected_device]
  · rw [set_data_of_length_ne cb s d hd]
    rfl

/-- Claim C9: in every state reachable from construction the stored previous
raw beat count is a byte (0 … 255), and consequently the unwrap difference
`_set_data` would compute for any incoming raw beat count is never
negative. -/
theorem previous_beat_count_byte_range (cb : CallbackCfg) (s : HeartRateState)
    (h : Reachable cb s) :
    s.previous_beat_count ≤ 255 ∧
      ∀ bc : Nat, 0 ≤ difference s.previous_beat_count bc := by
  have hprev := reachable_previous_beat_count_le cb s h
  exact ⟨hprev, fun bc => difference_nonneg s.previous_beat_count bc hprev⟩

/-- Witness for C9 at the state reached by one valid message from
construction. -/
theorem previous_beat_count_byte_range_witness :
    ((set_data noCallback initState (mkMsg 0 0 5 70)).state).previous_beat_count
        ≤ 255 ∧
      0 ≤ difference
        ((set_data noCallback initState (mkMsg 0 0 5 70)).state).previous_beat_count
        3 :=
  ⟨(previous_beat_count_byte_range noCallback _
      (Reachable.data initState (mkMsg 0 0 5 70) Reachable.init (by decide))).1,
   (previous_beat_count_byte_range noCallback _
      (Reachable.data initState (mkMsg 0 0 5 70) Reachable.init (by decide))).2 3⟩

/-- Claim C10: the cumulative beat count is kept in exact unbounded integer
arithmetic — Python integers do not wrap, despite the source comment
`TODO this will still wrap...`.  Processing any sequence of 9-byte payloads
leaves `_beat_count` equal to its initial value plus the exact sum of the
per-message unwrap differences, at any magnitude. -/
theorem beat_count_exact_sum (cb : CallbackCfg) (msgs : List (List Nat))
    (s : HeartRateState) (h : ∀ d ∈ msgs, d.length = 9) :
    (run_messages cb s msgs).beat_count =
      s.beat_count + diff_sum s.previous_beat_count msgs := by
  induction msgs generalizing s with
  | nil => simp [run_messages, diff_sum]
  | cons d ds ih =>
    have hd : d.length = 9 := h d (List.mem_cons_self d ds)
    have hfields := set_data_state_fields cb s d hd
    rw [run_messages, diff_sum,
      ih ((set_data cb s d).state) (fun m hm => h m (List.mem_cons_of_mem d hm)),
      hfields.1, hfields.2]
    ring

/-- Witness for C10 on a concrete two-message sequence crossing the 8-bit
wrap. -/
theorem beat_count_exact_sum_witness :
    (run_messages noCallback initState
        [mkMsg 0 0 255 70, mkMsg 0 1 4 70]).beat_count =
      initState.beat_count +
        diff_sum initState.previous_beat_count
          [mkMsg 0 0 255 70, mkMsg 0 1 4 70] :=
  beat_count_exact_sum noCallback [mkMsg 0 0 255 70, mkMsg 0 1 4 70]
    initState (by decide)

end HeartRatePy
